import Mathlib

/-!
Shallow embedding of `Ion_source.py` (ion-source control program).

Python floats are modelled as exact rationals (ℚ): every comparison and
conversion relevant to the verified claims is order- and value-exact on the
inputs considered. Fallible Python code (exceptions caught by handlers) is
modelled with `Option` / `Except`. Device and GUI effects are modelled as
explicit traces and returned state.
-/

namespace IonSource

/-! ### String utilities mirroring Python `str` methods -/

/-- Python `str.split(sep)` for a single-character separator, over `List Char`.
Always returns a non-empty list; empty input gives `[[]]`, matching
`"".split(',') == ['']`. -/
def splitChar : List Char → Char → List (List Char)
  | [], _ => [[]]
  | c :: cs, sep =>
    if c = sep then [] :: splitChar cs sep
    else
      match splitChar cs sep with
      | h :: t => (c :: h) :: t
      | [] => [[c]]

/-- Python `str.split(sep)` on strings. -/
def pySplit (s : String) (sep : Char) : List String :=
  (splitChar s.data sep).map (fun cs => ⟨cs⟩)

/-- Python `str.strip()`: remove leading and trailing whitespace. -/
def pyStrip (s : String) : String :=
  ⟨((s.data.dropWhile Char.isWhitespace).reverse.dropWhile Char.isWhitespace).reverse⟩

/-- Python `str.isdigit()` restricted to ASCII digits (the only digits the
device protocol emits): non-empty and all characters are `0`-`9`. -/
def pyIsDigit (s : String) : Bool :=
  !s.data.isEmpty && s.data.all Char.isDigit

/-! ### Numeric conversion mirroring Python `float()` / `int()` -/

/-- Value of a list of ASCII digit characters read in base 10. -/
def digitsToNat (cs : List Char) : ℕ :=
  cs.foldl (fun a c => a * 10 + (c.toNat - 48)) 0

/-- Consume an optional leading sign, returning the sign and the rest. -/
def parseSign : List Char → Int × List Char
  | '+' :: cs => (1, cs)
  | '-' :: cs => (-1, cs)
  | cs => (1, cs)

/-- Split a character list at the first exponent marker `e`/`E`. -/
def splitAtExp : List Char → List Char × Option (List Char)
  | [] => ([], none)
  | c :: cs =>
    if c = 'e' ∨ c = 'E' then ([], some cs)
    else
      let r := splitAtExp cs
      (c :: r.1, r.2)

/-- Parse the mantissa of a float literal: digits, optionally with one
decimal point, at least one digit overall. Returns the digit string read as a
natural number together with the number of fraction digits, so that the
mantissa value is the pair `(m, f)` with value `m / 10 ^ f`. -/
def parseMantissa (cs : List Char) : Option (ℕ × ℕ) :=
  match cs.splitOn '.' with
  | [ip] =>
    if !ip.isEmpty && ip.all Char.isDigit then some (digitsToNat ip, 0) else none
  | [ip, fp] =>
    if (!ip.isEmpty || !fp.isEmpty) && ip.all Char.isDigit && fp.all Char.isDigit then
      some (digitsToNat (ip ++ fp), fp.length)
    else none
  | _ => none

/-- Parse the exponent part (after `e`/`E`): optional sign then digits. -/
def parseExpPart (cs : List Char) : Option ℤ :=
  let (sgn, ds) := parseSign cs
  if !ds.isEmpty && ds.all Char.isDigit then some (sgn * digitsToNat ds) else none

/-- The exact rational `sgn * m * 10 ^ e`, built with `mkRat` so that the
kernel can evaluate it on concrete inputs. -/
def decValue (sgn : ℤ) (m : ℕ) (e : ℤ) : ℚ :=
  mkRat (sgn * m * 10 ^ (max e 0).toNat) (10 ^ (-e).toNat)

/-- Python `float(s)` on decimal literals, as an exact rational; `none` models
a raised `ValueError`. Surrounding whitespace is ignored as in Python. The
value is the exact decimal value of the literal (Python rounds it to the
nearest binary double; the claims below only involve values and comparisons
where that rounding is order- and value-preserving). -/
def pyFloat? (s : String) : Option ℚ :=
  let (sgn, cs) := parseSign (pyStrip s).data
  let (mcs, ecs) := splitAtExp cs
  match parseMantissa mcs, ecs with
  | some m, none => some (decValue sgn m.1 (-(m.2 : ℤ)))
  | some m, some e => (parseExpPart e).map (fun ex => decValue sgn m.1 (ex - m.2))
  | none, _ => none

/-- Python `int(s)`: optional sign then digits; `none` models `ValueError`.
Surrounding whitespace is ignored as in Python. -/
def pyInt? (s : String) : Option ℤ :=
  let (sgn, ds) := parseSign (pyStrip s).data
  if !ds.isEmpty && ds.all Char.isDigit then some (sgn * digitsToNat ds) else none

/-! ### The reading parser (`parse_reading` and helpers) -/

/-- `value.startswith(('E', 'e'))` from `safe_float`. -/
def startsWithExpMarker (s : String) : Bool :=
  match s.data with
  | c :: _ => c = 'E' ∨ c = 'e'
  | [] => false

/-- `safe_float` from `parse_reading`: prepend `1` when the value starts with
an exponent marker, then convert, defaulting to `0.0` on `ValueError`. -/
def safe_float (value : String) : ℚ :=
  let value := if startsWithExpMarker value then "1" ++ value else value
  (pyFloat? value).getD 0

/-- A value of the parsed-reading dictionary: Python float, int, or string. -/
inductive FieldVal where
  | num : ℚ → FieldVal
  | intv : ℤ → FieldVal
  | str : String → FieldVal
deriving DecidableEq

/-- Python dict lookup on the association-list model of the parsed reading. -/
def dictGet (d : List (String × FieldVal)) (k : String) : Option FieldVal :=
  (d.find? (fun p => p.1 == k)).map (fun p => p.2)

/-- Cleaning step of `parse_reading`: drop `\n`, `\r`, `\x04` and spaces,
then strip. -/
def rcClean (data : String) : String :=
  pyStrip ⟨data.data.filter (fun c => !(c = '\n' || c = '\r' || c = '\x04' || c = ' '))⟩

/-- Python `str.startswith(pre)`. -/
def pyStartsWith (s pre : String) : Bool :=
  pre.data.isPrefixOf s.data

/-- Drop the `RC` command echo at the front of the cleaned data, if present. -/
def rcAfterHeader (s : String) : String :=
  if pyStartsWith s "RC" then pyStrip ⟨s.data.drop 2⟩ else s

/-- The comma-separated fields `values` that `parse_reading` works on. -/
def rcFields (data : String) : List String :=
  pySplit (rcAfterHeader (rcClean data)) ','

/-- `safe_float(values[i]) if len(values) > i else 0.0`. -/
def rcNum (values : List String) (i : ℕ) : FieldVal :=
  match values.get? i with
  | some v => FieldVal.num (safe_float v)
  | none => FieldVal.num 0

/-- `int(values[11]) if len(values) > 11 and values[11].isdigit() else 0`. -/
def rcFatal (values : List String) : FieldVal :=
  match values.get? 11 with
  | some v => if pyIsDigit v then FieldVal.intv ((pyInt? v).getD 0) else FieldVal.intv 0
  | none => FieldVal.intv 0

/-- The dictionary literal built by `parse_reading`, given the value chosen
for the `Power Supply Mode` key. -/
def rcDict (values : List String) (psm : FieldVal) : List (String × FieldVal) :=
  [("Cathode Current (A)", rcNum values 0),
   ("Discharge Current (A)", rcNum values 1),
   ("Discharge Voltage (V)", rcNum values 2),
   ("Beam Current (mA)", rcNum values 3),
   ("Beam Voltage (V)", rcNum values 4),
   ("Accelerator Current (mA)", rcNum values 5),
   ("Accelerator Voltage (V)", rcNum values 6),
   ("Emission Current (mA)", rcNum values 7),
   ("Neutralizer Filament Current (A)", rcNum values 8),
   ("HC Keeper Voltage (V)", rcNum values 9),
   ("HCN Keeper Voltage (V)", rcNum values 10),
   ("Fatal Error Code", rcFatal values),
   ("Power Supply Mode", psm)]

/-- `parse_reading`: parse the RC response string into a dictionary; `none`
models the `except (IndexError, ValueError)` branch returning `None`.
The only fallible step is `int(values[12])` when field 13 is present and
non-empty (`int(values[12]) if len(values) > 12 and values[12] else "Unknown"`). -/
def parse_reading (data : String) : Option (List (String × FieldVal)) :=
  let values := rcFields data
  match values.get? 12 with
  | some v =>
    if v = "" then some (rcDict values (FieldVal.str "Unknown"))
    else
      match pyInt? v with
      | some n => some (rcDict values (FieldVal.intv n))
      | none => none
  | none => some (rcDict values (FieldVal.str "Unknown"))

/-- `parse_rh_reading`: parse the space-delimited RH response string into a
dictionary; `none` models the `except (IndexError, ValueError)` branch
returning `None`. Each field access `values[i]` and each `float`/`int`
conversion can fail; the time field is split on `:` and its three components
are accessed when the dictionary is built. -/
def parse_rh_reading (data : String) : Option (List (String × FieldVal)) :=
  let values := pySplit (pyStrip data) ' '
  match values.get? 0 with
  | none => none
  | some v0 =>
  let tvs := pySplit v0 ':'
  match Option.bind (values.get? 1) pyFloat? with
  | none => none
  | some cfc =>
  match Option.bind (values.get? 2) pyFloat? with
  | none => none
  | some dc =>
  match Option.bind (values.get? 3) pyFloat? with
  | none => none
  | some dv =>
  match Option.bind (values.get? 4) pyInt? with
  | none => none
  | some bc =>
  match Option.bind (values.get? 5) pyInt? with
  | none => none
  | some bv =>
  match Option.bind (values.get? 6) pyInt? with
  | none => none
  | some av =>
  match Option.bind (values.get? 7) pyInt? with
  | none => none
  | some ac =>
  match Option.bind (values.get? 8) pyInt? with
  | none => none
  | some ec =>
  match Option.bind (values.get? 9) pyFloat? with
  | none => none
  | some nfc =>
  match tvs.get? 0 with
  | none => none
  | some t0 =>
  match tvs.get? 1 with
  | none => none
  | some t1 =>
  match tvs.get? 2 with
  | none => none
  | some t2 =>
  some [("Time (Hr:Min:Sec)", FieldVal.str (t0 ++ ":" ++ t1 ++ ":" ++ t2)),
        ("Cathode Filament Current (A)", FieldVal.num cfc),
        ("Discharge Current (A)", FieldVal.num dc),
        ("Discharge Voltage (V)", FieldVal.num dv),
        ("Beam Current (mA)", FieldVal.intv bc),
        ("Beam Voltage (V)", FieldVal.intv bv),
        ("Accelerator Voltage (V)", FieldVal.intv av),
        ("Accelerator Current (mA)", FieldVal.intv ac),
        ("Emission Current (mA)", FieldVal.intv ec),
        ("Neutralizer Filament Current (A)", FieldVal.num nfc)]

/-! ### MaxiGauge: `send_command` and `get_pressure` -/

instance {ε α : Type} [DecidableEq ε] [DecidableEq α] : DecidableEq (Except ε α) :=
  fun x y =>
    match x, y with
    | Except.error a, Except.error b =>
      if h : a = b then Decidable.isTrue (by rw [h])
      else Decidable.isFalse (fun hc => h (Except.error.injEq a b ▸ hc))
    | Except.error _, Except.ok _ => Decidable.isFalse (fun hc => Except.noConfusion hc)
    | Except.ok _, Except.error _ => Decidable.isFalse (fun hc => Except.noConfusion hc)
    | Except.ok a, Except.ok b =>
      if h : a = b then Decidable.isTrue (by rw [h])
      else Decidable.isFalse (fun hc => h (Except.ok.injEq a b ▸ hc))

/-- `MaxiGauge.send_command`, as a function of the connection state and the
decoded reply line read after the enquiry bytes. The whole body runs inside
`try ... except Exception: return None`, so the `split(',')[1]` indexing step
failing (reply with fewer than two comma-separated fields) yields `None`,
never an uncaught exception. -/
def send_command (connOpen : Bool) (reply : String) : Option String :=
  if !connOpen then none
  else (pySplit (pyStrip reply) ',').get? 1

/-- `MaxiGauge.get_pressure`, as a function of the connection state, the
reply line and the sensor number. `Except.error ()` models the uncaught
`ValueError` that `float(response)` raises on a non-numeric field;
`Except.ok none` models the `return None` paths. An empty-string response is
falsy in Python, so it also returns `None`. -/
def get_pressure (connOpen : Bool) (reply : String) (sensor : ℤ) :
    Except Unit (Option ℚ) :=
  if !(1 ≤ sensor ∧ sensor ≤ 6) then Except.ok none
  else if !connOpen then Except.ok none
  else
    match send_command connOpen reply with
    | some r =>
      if r = "" then Except.ok none
      else
        match pyFloat? r with
        | some q => Except.ok (some q)
        | none => Except.error ()
    | none => Except.ok none

/-! ### Pressure interlock tick (`update_pressure`) -/

/-- What the pressure entry widget displays after a tick. -/
inductive PDisplay where
  | notConnected : PDisplay
  | shown : ℚ → PDisplay
  | invalidData : PDisplay
  | errorShown : PDisplay
deriving DecidableEq

/-- The inclusive pressure band `3e-4 <= p <= 10e-4` gating the source
button. -/
def lowerBand : ℚ := mkRat 3 10000
def upperBand : ℚ := mkRat 10 10000

/-- `update_pressure`: one tick of the pressure/interlock timer. Returns the
display state and whether the source button is enabled (`tk.NORMAL`). The
`except` branch (an exception escaping `get_pressure`) shows `Error` and
disables the button. -/
def update_pressure (connOpen : Bool) (reply : String) : PDisplay × Bool :=
  if !connOpen then (PDisplay.notConnected, false)
  else
    match get_pressure connOpen reply 3 with
    | Except.error _ => (PDisplay.errorShown, false)
    | Except.ok none => (PDisplay.invalidData, false)
    | Except.ok (some p) =>
      if lowerBand ≤ p ∧ p ≤ upperBand then (PDisplay.shown p, true)
      else (PDisplay.shown p, false)

/-! ### History series and the poll loop (`read_values`, `clear_data`) -/

/-- The four parallel in-memory history series. -/
structure Hist where
  timestamps : List String
  discharge_currents : List FieldVal
  beam_currents : List FieldVal
  pressure : List (Option ℚ)
deriving DecidableEq

/-- All four history series have the same length. -/
def Hist.balanced (h : Hist) : Prop :=
  h.timestamps.length = h.discharge_currents.length ∧
  h.timestamps.length = h.beam_currents.length ∧
  h.timestamps.length = h.pressure.length

instance (h : Hist) : Decidable h.balanced := by
  unfold Hist.balanced; infer_instance

/-- Index of the first `\n` in a character list, mirroring Python
`str.index('\n')`; `none` models the raised `ValueError`. -/
def idxOfNewline : List Char → Option ℕ
  | [] => none
  | c :: cs => if c = '\n' then some 0 else (idxOfNewline cs).map (· + 1)

/-- The pre-parse cleanup in `read_values`: when the response starts with
`RC`, keep only what follows the first newline and strip it; `none` models
the `ValueError` from `response.index("\n")` when no newline exists, which
the outer `except` catches (no data point recorded). -/
def rcResponseClean (response : String) : Option String :=
  if pyStartsWith response "RC" then
    match idxOfNewline response.data with
    | some i => some (pyStrip ⟨response.data.drop (i + 1)⟩)
    | none => none
  else some response

/-- `read_values`: one poll. Inputs: device connection state, the gauge
outcome (`get_pressure` result, `Except.error` when it raised), the loop
flag and the `force_read` argument, the decoded source response, and the
elapsed-time label. Returns the updated history; every failure path leaves
the history unchanged. The order mirrors the code: device check, gauge read,
active check, response cleanup, parse, then the four appends. -/
def read_values (deviceOpen : Bool) (gauge : Except Unit (Option ℚ))
    (active force : Bool) (resp lbl : String) (h : Hist) : Hist :=
  if !deviceOpen then h
  else
    match gauge with
    | Except.error _ => h
    | Except.ok p3 =>
      if !active && !force then h
      else
        match rcResponseClean resp with
        | none => h
        | some r =>
          match parse_reading r with
          | none => h
          | some d =>
            { timestamps := h.timestamps ++ [lbl]
              discharge_currents :=
                h.discharge_currents ++ [(dictGet d "Discharge Current (A)").getD (FieldVal.num 0)]
              beam_currents :=
                h.beam_currents ++ [(dictGet d "Beam Current (mA)").getD (FieldVal.num 0)]
              pressure := h.pressure ++ [p3] }

/-- `clear_data`: clear all four history series. -/
def clear_data (_h : Hist) : Hist :=
  { timestamps := [], discharge_currents := [], beam_currents := [], pressure := [] }

/-! ### Beam toggle (`toggle_beam`) -/

/-- Commands written to the ion-source device that the claims track. -/
inductive Cmd where
  | B1 : Cmd
  | B0 : Cmd
  | RC : Cmd
deriving DecidableEq

/-- How a user-triggered action is reported. -/
inductive Report where
  | silent : Report
  | warningBox : Report
  | errorBox : Report
deriving DecidableEq

/-- The toggle flags `beam_on` and `source_on`. -/
structure BeamState where
  beam_on : Bool
  source_on : Bool
deriving DecidableEq

/-- `toggle_beam`: returns the device writes, the updated flags, and the
report shown. Disconnected device shows an error; source off shows a
warning; otherwise the beam command is written and `beam_on` flipped. -/
def toggle_beam (deviceOpen : Bool) (st : BeamState) :
    List Cmd × BeamState × Report :=
  if !deviceOpen then ([], st, Report.errorBox)
  else if !st.source_on then ([], st, Report.warningBox)
  else if st.beam_on then ([Cmd.B0], { st with beam_on := false }, Report.silent)
  else ([Cmd.B1], { st with beam_on := true }, Report.silent)

/-! ### Timed beam sequence (`create_sequence`) -/

/-- Trace of one on/off period: beam on, `rOn` forced reads (each writes
`RC`), beam off, `rOff` forced reads. -/
def periodTrace (rOn rOff : ℕ) : List Cmd :=
  [Cmd.B1] ++ List.replicate rOn Cmd.RC ++ [Cmd.B0] ++ List.replicate rOff Cmd.RC

/-- Trace of the first `n` periods, in order (`for i in range(periods)`). -/
def seqTrace (rOn rOff : ℕ → ℕ) : ℕ → List Cmd
  | 0 => []
  | n + 1 => seqTrace rOn rOff n ++ periodTrace (rOn n) (rOff n)

/-- Result of one `create_sequence` invocation. -/
structure SeqResult where
  trace : List Cmd
  duringActive : Bool
  finalActive : Bool
  completed : Bool
deriving DecidableEq

/-- `create_sequence`: the timed beam sequence. `rOn i` / `rOff i` are the
numbers of busy-poll iterations of the two wall-clock loops in period `i`
(timing-dependent, hence parameters). The pause block runs before input
validation; the resume block runs `reading_active = True` whenever
`reading_active` is false at that point — which, after the pause, it always
is. The trailing `RC` is the immediate `read_values()` call of the resume
block. -/
def create_sequence (deviceOpen sourceOn active0 : Bool)
    (on_time off_time : ℚ) (periods : ℤ) (rOn rOff : ℕ → ℕ) : SeqResult :=
  if !deviceOpen then ⟨[], active0, active0, false⟩
  else if !sourceOn then ⟨[], active0, active0, false⟩
  else
    let active1 := if active0 then false else active0
    if on_time ≤ 0 ∨ off_time ≤ 0 ∨ periods ≤ 0 then ⟨[], active1, active1, false⟩
    else
      let tr := seqTrace rOn rOff periods.toNat
      let active2 := if !active1 then true else active1
      ⟨tr ++ [Cmd.RC], active1, active2, true⟩

/-! ### Auxiliary definitions used by theorem statements -/

/-- The key of the `i`-th float-valued field of a parsed RC reading. -/
def rcKey : ℕ → String
  | 0 => "Cathode Current (A)"
  | 1 => "Discharge Current (A)"
  | 2 => "Discharge Voltage (V)"
  | 3 => "Beam Current (mA)"
  | 4 => "Beam Voltage (V)"
  | 5 => "Accelerator Current (mA)"
  | 6 => "Accelerator Voltage (V)"
  | 7 => "Emission Current (mA)"
  | 8 => "Neutralizer Filament Current (A)"
  | 9 => "HC Keeper Voltage (V)"
  | 10 => "HCN Keeper Voltage (V)"
  | _ => ""

/-- A poll of `read_values` that records a data point: device connected,
gauge read did not raise, loop active or force-invoked, response cleanup
succeeded and the response parsed. -/
def pollSuccess (dev : Bool) (gauge : Except Unit (Option ℚ))
    (active force : Bool) (resp : String) : Prop :=
  dev = true ∧ (∃ p3, gauge = Except.ok p3) ∧ (active = true ∨ force = true) ∧
  ∃ r d, rcResponseClean resp = some r ∧ parse_reading r = some d

/-- The beam commands among the device writes. -/
def isBeamCmd : Cmd → Bool
  | Cmd.B1 => true
  | Cmd.B0 => true
  | Cmd.RC => false

/-! ### Helper lemmas -/

theorem startsWithExpMarker_one_append (v : String) :
    startsWithExpMarker ("1" ++ v) = false := by
  have hd : ("1" ++ v).data = '1' :: v.data := rfl
  simp [startsWithExpMarker, hd]

theorem splitChar_no_sep (cs : List Char) (sep : Char) (h : ∀ c ∈ cs, c ≠ sep) :
    splitChar cs sep = [cs] := by
  induction cs with
  | nil => rfl
  | cons c cs ih =>
    simp only [splitChar]
    rw [if_neg (h c (by simp)), ih (fun x hx => h x (by simp [hx]))]

theorem rcNum_of_missing (values : List String) (i : ℕ) (h : values.length ≤ i) :
    rcNum values i = FieldVal.num 0 := by
  unfold rcNum
  rw [List.get?_eq_none.mpr h]

theorem rcFatal_of_missing (values : List String) (h : values.length ≤ 11) :
    rcFatal values = FieldVal.intv 0 := by
  unfold rcFatal
  rw [List.get?_eq_none.mpr h]

theorem dictGet_rcDict_num (values : List String) (psm : FieldVal) (i : ℕ)
    (h : i < 11) :
    dictGet (rcDict values psm) (rcKey i) = some (rcNum values i) := by
  interval_cases i <;> rfl

theorem dictGet_rcDict_fatal (values : List String) (psm : FieldVal) :
    dictGet (rcDict values psm) "Fatal Error Code" = some (rcFatal values) := rfl

theorem dictGet_rcDict_psm (values : List String) (psm : FieldVal) :
    dictGet (rcDict values psm) "Power Supply Mode" = some psm := rfl

/-! ### Claim theorems -/

/-- C1: in the pressure-interlock tick `update_pressure`, the source button
is enabled exactly when the connection is open, `get_pressure` returned a
numeric reading, and that reading lies in the inclusive band
`[3e-4, 10e-4]`; every other outcome (closed connection, no reading, an
exception, or a reading outside the band) leaves the button disabled. -/
theorem update_pressure_band_gate (connOpen : Bool) (reply : String) :
    (update_pressure connOpen reply).2 = true ↔
      connOpen = true ∧ ∃ p : ℚ,
        get_pressure connOpen reply 3 = Except.ok (some p) ∧
        3 / 10000 ≤ p ∧ p ≤ 10 / 10000 := by
  have hl : lowerBand = 3 / 10000 := by norm_num [lowerBand, mkRat, Rat.normalize]
  have hu : upperBand = 10 / 10000 := by norm_num [upperBand, mkRat, Rat.normalize]
  cases connOpen with
  | false => simp [update_pressure]
  | true =>
    cases hg : get_pressure true reply 3 with
    | error e => simp [update_pressure, hg]
    | ok o =>
      cases o with
      | none => simp [update_pressure, hg]
      | some p =>
        by_cases hband : lowerBand ≤ p ∧ p ≤ upperBand
        · simp [update_pressure, hg, hband, hl ▸ hband.1, hu ▸ hband.2]
        · constructor
          · intro h0
            have h2 : (update_pressure true reply).2 = false := by
              simp [update_pressure, hg, hband]
            rw [h0] at h2
            cases h2
          · rintro ⟨-, q, hq, hq1, hq2⟩
            have hpq : p = q := by
              injection hq with h1
              injection h1 with h2
            cases hpq
            rw [hl, hu] at hband
            exact absurd ⟨hq1, hq2⟩ hband

/-- C5 (code bug): a complete sequence run started while the regular poll
loop is inactive keeps `reading_active` false during the beam periods, but
the resume block afterwards unconditionally sets `reading_active` to true —
contradicting the code's own comment (resume only if it was active before)
and the spec. Evaluated at the failing input on-time 1, off-time 1,
periods 2, loop inactive beforehand. -/
theorem create_sequence_resume_at_failing_input :
    (create_sequence true true false 1 1 2 (fun _ => 1) (fun _ => 1)).duringActive
        = false ∧
    (create_sequence true true false 1 1 2 (fun _ => 1) (fun _ => 1)).completed
        = true ∧
    (create_sequence true true false 1 1 2 (fun _ => 1) (fun _ => 1)).finalActive
        = true := by decide

/-- C6: a timed beam sequence with on-time 1, off-time 1, periods 2
(device connected, source on) writes exactly two beam-enable and two
beam-disable commands, in the alternating order `B1, B0, B1, B0`, whatever
the busy-poll read counts and the prior loop state were. -/
theorem sequence_two_periods_beam_commands (active0 : Bool) (rOn rOff : ℕ → ℕ) :
    ((create_sequence true true active0 1 1 2 rOn rOff).trace.filter isBeamCmd)
      = [Cmd.B1, Cmd.B0, Cmd.B1, Cmd.B0] ∧
    ((create_sequence true true active0 1 1 2 rOn rOff).trace.count Cmd.B1 = 2) ∧
    ((create_sequence true true active0 1 1 2 rOn rOff).trace.count Cmd.B0 = 2) := by
  have hv : ¬ ((1 : ℚ) ≤ 0) := by norm_num
  have htr : (create_sequence true true active0 1 1 2 rOn rOff).trace
      = seqTrace rOn rOff 2 ++ [Cmd.RC] := by
    cases active0 <;> simp [create_sequence, hv]
  have h2 : seqTrace rOn rOff 2
      = periodTrace (rOn 0) (rOff 0) ++ periodTrace (rOn 1) (rOff 1) := by
    simp [seqTrace]
  rw [htr, h2]
  refine ⟨?_, ?_, ?_⟩ <;>
    simp [periodTrace, List.filter_append, List.count_append, isBeamCmd,
      List.filter_replicate, List.count_replicate]

/-- C7: `parse_reading` on the compact-format sample input yields
Discharge Current 2.0, Beam Current 4.0 and Fatal Error Code 2. -/
theorem parse_reading_sample_fields :
    ((parse_reading "1.0,2.0,3.0,4.0,5.0,6.0,7.0,8.0,9.0,10.0,11.0,2,1").bind
        (fun d => dictGet d "Discharge Current (A)")) = some (FieldVal.num 2) ∧
    ((parse_reading "1.0,2.0,3.0,4.0,5.0,6.0,7.0,8.0,9.0,10.0,11.0,2,1").bind
        (fun d => dictGet d "Beam Current (mA)")) = some (FieldVal.num 4) ∧
    ((parse_reading "1.0,2.0,3.0,4.0,5.0,6.0,7.0,8.0,9.0,10.0,11.0,2,1").bind
        (fun d => dictGet d "Fatal Error Code")) = some (FieldVal.intv 2) := by
  decide

/-- C8: for every field string beginning with an exponent marker `E`/`e`,
`safe_float` of the string equals `safe_float` of the string with a leading
`1` prepended. -/
theorem safe_float_exp_prepend (v : String)
    (h : startsWithExpMarker v = true) :
    safe_float v = safe_float ("1" ++ v) := by
  unfold safe_float
  rw [h, startsWithExpMarker_one_append]
  simp

/-- Witness for C8 at the concrete input `E5`. -/
theorem safe_float_exp_prepend_check :
    startsWithExpMarker "E5" = true ∧ safe_float "E5" = safe_float ("1" ++ "E5") :=
  ⟨by decide, safe_float_exp_prepend "E5" (by decide)⟩

/-- C9 (counterexample to the claim as stated): with the device disconnected
and the source off, `toggle_beam` is a no-op on state and writes nothing,
but the action is reported as a connection error dialog, not as a warning. -/
theorem toggle_beam_disconnected_report :
    (⟨false, false⟩ : BeamState).source_on = false ∧
    toggle_beam false ⟨false, false⟩ = ([], ⟨false, false⟩, Report.errorBox) ∧
    Report.errorBox ≠ Report.warningBox := by decide

/-- C9 (amended): whenever `source_on` is false, `toggle_beam` writes no
command and leaves both `beam_on` and `source_on` unchanged; the action is
reported as a warning when the device is connected, and as a connection
error when it is not. -/
theorem toggle_beam_source_off_noop (dev : Bool) (st : BeamState)
    (h : st.source_on = false) :
    (toggle_beam dev st).1 = [] ∧ (toggle_beam dev st).2.1 = st ∧
    (toggle_beam dev st).2.2
      = (if dev then Report.warningBox else Report.errorBox) := by
  cases dev <;> simp [toggle_beam, h]

/-- Witness for the amended C9 at a concrete input. -/
theorem toggle_beam_source_off_noop_check :
    (⟨true, false⟩ : BeamState).source_on = false ∧
    ((toggle_beam true ⟨true, false⟩).1 = [] ∧
      (toggle_beam true ⟨true, false⟩).2.1 = (⟨true, false⟩ : BeamState) ∧
      (toggle_beam true ⟨true, false⟩).2.2
        = (if true then Report.warningBox else Report.errorBox)) :=
  ⟨by decide, toggle_beam_source_off_noop true ⟨true, false⟩ (by decide)⟩

/-- C10: `send_command` never propagates an exception: it returns the second
comma-separated field of the reply when that field exists, and `None`
otherwise; in particular a reply with no comma makes the indexing step fail
inside the handler, `send_command` returns `None`, and `get_pressure` then
yields no value for that poll cycle. -/
theorem send_command_no_comma_none (connOpen : Bool) (reply : String)
    (h : ∀ c ∈ (pyStrip reply).data, c ≠ ',') :
    send_command connOpen reply = none ∧
    get_pressure connOpen reply 3 = Except.ok none ∧
    (∀ r s, send_command connOpen r = some s →
      (pySplit (pyStrip r) ',').get? 1 = some s) := by
  have hs : pySplit (pyStrip reply) ',' = [⟨(pyStrip reply).data⟩] := by
    unfold pySplit
    rw [splitChar_no_sep _ _ h]
    rfl
  refine ⟨?_, ?_, ?_⟩
  · cases connOpen with
    | false => rfl
    | true => simp [send_command, hs]
  · cases connOpen with
    | false => rfl
    | true => simp [get_pressure, send_command, hs]
  · intro r s hrs
    cases connOpen with
    | false => simp [send_command] at hrs
    | true => simpa [send_command] using hrs

/-- Witness for C10 at the concrete comma-free reply `OK`. -/
theorem send_command_no_comma_none_check :
    (∀ c ∈ (pyStrip "OK").data, c ≠ ',') ∧
    (send_command true "OK" = none ∧
      get_pressure true "OK" 3 = Except.ok none ∧
      (∀ r s, send_command true r = some s →
        (pySplit (pyStrip r) ',').get? 1 = some s)) :=
  ⟨by decide, send_command_no_comma_none true "OK" (by decide)⟩

/-! ### Claims about short responses and the history invariant -/

theorem read_values_step (p3 : Option ℚ) (active force : Bool)
    (hact : active = true ∨ force = true) (resp lbl : String) (h : Hist) :
    (pollSuccess true (Except.ok p3) active force resp ∧
      ∃ d3 b3 q3, read_values true (Except.ok p3) active force resp lbl h =
        { timestamps := h.timestamps ++ [lbl],
          discharge_currents := h.discharge_currents ++ [d3],
          beam_currents := h.beam_currents ++ [b3],
          pressure := h.pressure ++ [q3] }) ∨
    (¬ pollSuccess true (Except.ok p3) active force resp ∧
      read_values true (Except.ok p3) active force resp lbl h = h) := by
  have hb2 : (!active && !force) = false := by
    rcases hact with ha | ha <;> simp [ha]
  cases hc : rcResponseClean resp with
  | none =>
    right
    constructor
    · rintro ⟨-, -, -, r, d, hr, -⟩
      rw [hc] at hr
      cases hr
    · simp [read_values, hb2, hc]
  | some r =>
    cases hp : parse_reading r with
    | none =>
      right
      constructor
      · rintro ⟨-, -, -, r2, d, hr, hpd⟩
        rw [hc] at hr
        injection hr with he
        rw [← he, hp] at hpd
        cases hpd
      · simp [read_values, hb2, hc, hp]
    | some d =>
      left
      refine ⟨⟨rfl, ⟨p3, rfl⟩, hact, r, d, hc, hp⟩,
        (dictGet d "Discharge Current (A)").getD (FieldVal.num 0),
        (dictGet d "Beam Current (mA)").getD (FieldVal.num 0), p3, ?_⟩
      simp [read_values, hb2, hc, hp]

/-- C4: each successful poll of `read_values` appends exactly one element to
each of the four history series, any other poll leaves them unchanged, and
`clear_data` empties all four; hence the series keep equal lengths at every
observation point. -/
theorem history_series_lengths (dev : Bool) (gauge : Except Unit (Option ℚ))
    (active force : Bool) (resp lbl : String) (h : Hist) (hb : h.balanced) :
    (read_values dev gauge active force resp lbl h).balanced ∧
    clear_data h = ⟨[], [], [], []⟩ ∧
    (pollSuccess dev gauge active force resp →
      (read_values dev gauge active force resp lbl h).timestamps.length
          = h.timestamps.length + 1 ∧
      (read_values dev gauge active force resp lbl h).discharge_currents.length
          = h.discharge_currents.length + 1 ∧
      (read_values dev gauge active force resp lbl h).beam_currents.length
          = h.beam_currents.length + 1 ∧
      (read_values dev gauge active force resp lbl h).pressure.length
          = h.pressure.length + 1) ∧
    (¬ pollSuccess dev gauge active force resp →
      read_values dev gauge active force resp lbl h = h) := by
  have key : (pollSuccess dev gauge active force resp ∧
      ∃ d3 b3 q3, read_values dev gauge active force resp lbl h =
        { timestamps := h.timestamps ++ [lbl],
          discharge_currents := h.discharge_currents ++ [d3],
          beam_currents := h.beam_currents ++ [b3],
          pressure := h.pressure ++ [q3] }) ∨
      (¬ pollSuccess dev gauge active force resp ∧
        read_values dev gauge active force resp lbl h = h) := by
    cases dev with
    | false =>
      right
      refine ⟨?_, rfl⟩
      rintro ⟨hdev, -⟩
      exact Bool.false_ne_true hdev
    | true =>
      cases gauge with
      | error e =>
        right
        refine ⟨?_, rfl⟩
        rintro ⟨-, ⟨q, hq⟩, -⟩
        exact Except.noConfusion hq
      | ok p3 =>
        cases active with
        | true => exact read_values_step p3 true force (Or.inl rfl) resp lbl h
        | false =>
          cases force with
          | true => exact read_values_step p3 false true (Or.inr rfl) resp lbl h
          | false =>
            right
            refine ⟨?_, rfl⟩
            rintro ⟨-, -, hact, -⟩
            rcases hact with ha | ha <;> exact Bool.false_ne_true ha
  rcases key with ⟨hps, d3, b3, q3, heq⟩ | ⟨hnps, heq⟩
  · refine ⟨?_, rfl, fun _ => ?_, fun hn => absurd hps hn⟩
    · rw [heq]
      unfold Hist.balanced at hb ⊢
      simp only [List.length_append, List.length_cons, List.length_nil]
      omega
    · rw [heq]
      simp [List.length_append]
  · exact ⟨by rw [heq]; exact hb, rfl, fun hps => absurd hps hnps, fun _ => heq⟩

/-- Witness for C4 at a concrete successful poll on an empty history. -/
theorem history_series_lengths_check :
    (⟨[], [], [], []⟩ : Hist).balanced ∧
    ((read_values true (Except.ok none) true false "1.0,2.0" "0:01"
        ⟨[], [], [], []⟩).balanced ∧
      clear_data ⟨[], [], [], []⟩ = ⟨[], [], [], []⟩ ∧
      (pollSuccess true (Except.ok none) true false "1.0,2.0" →
        (read_values true (Except.ok none) true false "1.0,2.0" "0:01"
            ⟨[], [], [], []⟩).timestamps.length
          = (⟨[], [], [], []⟩ : Hist).timestamps.length + 1 ∧
        (read_values true (Except.ok none) true false "1.0,2.0" "0:01"
            ⟨[], [], [], []⟩).discharge_currents.length
          = (⟨[], [], [], []⟩ : Hist).discharge_currents.length + 1 ∧
        (read_values true (Except.ok none) true false "1.0,2.0" "0:01"
            ⟨[], [], [], []⟩).beam_currents.length
          = (⟨[], [], [], []⟩ : Hist).beam_currents.length + 1 ∧
        (read_values true (Except.ok none) true false "1.0,2.0" "0:01"
            ⟨[], [], [], []⟩).pressure.length
          = (⟨[], [], [], []⟩ : Hist).pressure.length + 1) ∧
      (¬ pollSuccess true (Except.ok none) true false "1.0,2.0" →
        read_values true (Except.ok none) true false "1.0,2.0" "0:01"
          ⟨[], [], [], []⟩ = ⟨[], [], [], []⟩)) :=
  ⟨by decide,
    history_series_lengths true (Except.ok none) true false "1.0,2.0" "0:01"
      ⟨[], [], [], []⟩ (by decide)⟩

/-- C2 (amended): a compact-form response with fewer than 13 fields always
parses: `parse_reading` defaults every missing float field and the missing
Fatal Error Code to zero, and the missing Power Supply Mode to the string
`Unknown`; by contrast `parse_rh_reading` on a response with fewer than 10
fields produces no Reading at all. -/
theorem short_response_parsing (dataRC dataRH : String)
    (hrc : (rcFields dataRC).length < 13)
    (hrh : (pySplit (pyStrip dataRH) ' ').length < 10) :
    (∃ d, parse_reading dataRC = some d ∧
      (∀ i : ℕ, i < 11 → (rcFields dataRC).length ≤ i →
        dictGet d (rcKey i) = some (FieldVal.num 0)) ∧
      ((rcFields dataRC).length ≤ 11 →
        dictGet d "Fatal Error Code" = some (FieldVal.intv 0)) ∧
      dictGet d "Power Supply Mode" = some (FieldVal.str "Unknown")) ∧
    parse_rh_reading dataRH = none := by
  constructor
  · have h12 : (rcFields dataRC).get? 12 = none :=
      List.get?_eq_none.mpr (by omega)
    have hparse : parse_reading dataRC
        = some (rcDict (rcFields dataRC) (FieldVal.str "Unknown")) := by
      simp only [parse_reading, h12]
    refine ⟨_, hparse, ?_, ?_, dictGet_rcDict_psm _ _⟩
    · intro i hi hmiss
      rw [dictGet_rcDict_num _ _ i hi, rcNum_of_missing _ _ hmiss]
    · intro hmiss
      rw [dictGet_rcDict_fatal, rcFatal_of_missing _ hmiss]
  · have h9 : (pySplit (pyStrip dataRH) ' ').get? 9 = none :=
      List.get?_eq_none.mpr (by omega)
    simp only [parse_rh_reading, h9, Option.none_bind]
    repeat' split
    all_goals rfl

/-- Witness for C2 at concrete short inputs. -/
theorem short_response_parsing_check :
    (rcFields "1.0,2.0").length < 13 ∧
    (pySplit (pyStrip "") ' ').length < 10 ∧
    ((∃ d, parse_reading "1.0,2.0" = some d ∧
      (∀ i : ℕ, i < 11 → (rcFields "1.0,2.0").length ≤ i →
        dictGet d (rcKey i) = some (FieldVal.num 0)) ∧
      ((rcFields "1.0,2.0").length ≤ 11 →
        dictGet d "Fatal Error Code" = some (FieldVal.intv 0)) ∧
      dictGet d "Power Supply Mode" = some (FieldVal.str "Unknown")) ∧
    parse_rh_reading "" = none) :=
  ⟨by decide, by decide, short_response_parsing "1.0,2.0" "" (by decide) (by decide)⟩

/-- C2 (counterexample to the claim as stated): the alternate parser
`parse_rh_reading` does not default missing fields — on a short response it
returns no Reading at all. -/
theorem parse_rh_reading_short_fails :
    parse_rh_reading "12:00:01 1.5" = none := by decide

/-- C3: whenever the 13th field of the compact response is missing or empty,
`parse_reading` succeeds and maps `Power Supply Mode` to the string
`Unknown`, while every other missing field of the same Reading defaults to
the number zero. -/
theorem parse_reading_psm_unknown (data : String)
    (h : (rcFields data).get? 12 = none ∨ (rcFields data).get? 12 = some "") :
    ∃ d, parse_reading data = some d ∧
      dictGet d "Power Supply Mode" = some (FieldVal.str "Unknown") ∧
      (∀ i : ℕ, i < 11 → (rcFields data).length ≤ i →
        dictGet d (rcKey i) = some (FieldVal.num 0)) ∧
      ((rcFields data).length ≤ 11 →
        dictGet d "Fatal Error Code" = some (FieldVal.intv 0)) := by
  have hparse : parse_reading data
      = some (rcDict (rcFields data) (FieldVal.str "Unknown")) := by
    rcases h with h' | h'
    · simp only [parse_reading, h']
    · simp only [parse_reading, h']
      rw [if_pos trivial]
  refine ⟨_, hparse, dictGet_rcDict_psm _ _, ?_, ?_⟩
  · intro i hi hmiss
    rw [dictGet_rcDict_num _ _ i hi, rcNum_of_missing _ _ hmiss]
  · intro hmiss
    rw [dictGet_rcDict_fatal, rcFatal_of_missing _ hmiss]

/-- Witness for C3 at a concrete input whose 13th field is empty. -/
theorem parse_reading_psm_unknown_check :
    ((rcFields "1,2,3,4,5,6,7,8,9,10,11,3,").get? 12 = none ∨
      (rcFields "1,2,3,4,5,6,7,8,9,10,11,3,").get? 12 = some "") ∧
    (∃ d, parse_reading "1,2,3,4,5,6,7,8,9,10,11,3," = some d ∧
      dictGet d "Power Supply Mode" = some (FieldVal.str "Unknown") ∧
      (∀ i : ℕ, i < 11 → (rcFields "1,2,3,4,5,6,7,8,9,10,11,3,").length ≤ i →
        dictGet d (rcKey i) = some (FieldVal.num 0)) ∧
      ((rcFields "1,2,3,4,5,6,7,8,9,10,11,3,").length ≤ 11 →
        dictGet d "Fatal Error Code" = some (FieldVal.intv 0))) :=
  ⟨by decide, parse_reading_psm_unknown "1,2,3,4,5,6,7,8,9,10,11,3," (by decide)⟩

end IonSource
